import Mathlib

/-!
Verification of the authentication/authorization core of the restaurant
management backend (Go/gin).  The middleware (`Authentication`,
`RequireAdmin`), the user controller (`Signup`, `Login`) and the data
model are embedded from the source; the `helpers` package (token
service, password hasher) is not part of the provided sources, so those
definitions are modelled from the specification and are marked as such.
-/

/-- Identity claims carried by a signed token: email, first name, last
name, role, plus issued-at and expiry timestamps (spec section 3). -/
structure Claims where
  Email : String
  FirstName : String
  LastName : String
  UserType : String
  IssuedAt : Nat
  ExpiresAt : Nat
deriving DecidableEq, Repr

/-- Modelled from the spec: the access-token lifetime (a fixed
configured duration; the spec fixes no number, only that it is positive
and shorter than the refresh lifetime). -/
def accessDuration : Nat := 86400

/-- Modelled from the spec: the refresh-token lifetime (longer than the
access-token lifetime). -/
def refreshDuration : Nat := 604800

/-- Modelled from the spec: the message-authentication code a signed
token carries, as a function of the server secret and the claims.  The
concrete function is irrelevant to the contract; validation succeeds
exactly when the stored code matches a recomputation. -/
def macOf (secret : String) (cl : Claims) : Nat :=
  (secret ++ cl.Email ++ cl.FirstName ++ cl.LastName ++ cl.UserType).length
    + cl.IssuedAt + cl.ExpiresAt

/-- Modelled from the spec: a token is either an unparseable blob or a
claims payload together with a signature code. -/
inductive Token where
  | malformed (raw : String)
  | signed (claims : Claims) (mac : Nat)
deriving DecidableEq, Repr

/-- Modelled from the spec: signing serializes the claims and attaches
the secret-dependent signature. -/
def signClaims (secret : String) (cl : Claims) : Token :=
  Token.signed cl (macOf secret cl)

/-- Modelled from the spec: `helpers.GenerateAllTokens` (absent from the
sources) builds the identity claims twice, once with the access expiry
and once with the refresh expiry, and signs each with the server
secret. -/
def GenerateAllTokens (secret : String) (now : Nat)
    (email firstName lastName role : String) : Token × Token :=
  (signClaims secret ⟨email, firstName, lastName, role, now, now + accessDuration⟩,
   signClaims secret ⟨email, firstName, lastName, role, now, now + refreshDuration⟩)

/-- The validation error taxonomy of spec section 4.2. -/
inductive TokenError where
  | malformed
  | signatureInvalid
  | expired
deriving DecidableEq, Repr

/-- Modelled from the spec: `helpers.ValidateToken` (absent from the
sources) parses, verifies the signature, then checks expiry against the
current time; claims are only returned after the signature matches. -/
def ValidateToken (secret : String) (now : Nat) :
    Token → Except TokenError Claims
  | Token.malformed _ => Except.error TokenError.malformed
  | Token.signed cl mac =>
    if mac ≠ macOf secret cl then Except.error TokenError.signatureInvalid
    else if cl.ExpiresAt < now then Except.error TokenError.expired
    else Except.ok cl

/-- The human-readable reason attached to each validation error kind
(spec section 4.3 names them Malformed / SignatureInvalid / Expired). -/
def errMsgOf : TokenError → String
  | TokenError.malformed => "Malformed"
  | TokenError.signatureInvalid => "SignatureInvalid"
  | TokenError.expired => "Expired"

/-- The zero value of the claims record, what the Go helper returns
alongside a non-empty error message. -/
def defaultClaims : Claims := ⟨"", "", "", "", 0, 0⟩

/-- Modelled from the spec: the Go-shaped wrapper of `ValidateToken` as
the middleware consumes it, returning the claims and an error message
that is empty exactly on success. -/
def validateTokenGo (secret : String) (now : Nat) (t : Token) :
    Claims × String :=
  match ValidateToken secret now t with
  | Except.ok cl => (cl, "")
  | Except.error e => (defaultClaims, errMsgOf e)

/-- Modelled from the spec: the Password Hasher's digest, a salt
together with the salted one-way transform of the password.  The
one-way transform is modelled as the identity on the character list
(one-wayness itself is not a functional property); what the contract
needs is that for a fixed salt the transform is injective and that
`VerifyPassword` recomputes it. -/
structure HashDigest where
  salt : Nat
  code : List Char
deriving DecidableEq, Repr

/-- Modelled from the spec: `helpers.HashPassword` (absent from the
sources) produces a salted one-way digest of the plaintext. -/
def HashPassword (salt : Nat) (p : String) : HashDigest :=
  ⟨salt, p.data⟩

/-- Modelled from the spec: `helpers.VerifyPassword` (absent from the
sources) re-hashes the candidate with the digest's salt and compares;
it returns false, never an error, on mismatch. -/
def VerifyPassword (digest : HashDigest) (p : String) : Bool :=
  HashPassword digest.salt p == digest

/-- A gin request context as the middleware observes it: the request
headers, the context key/value store written by `c.Set` and read by
`c.GetString`, the response written by `c.JSON`, and the abort flag. -/
structure GinContext where
  headers : List (String × String)
  keys : List (String × String)
  response : Option (Nat × List (String × String))
  aborted : Bool
deriving DecidableEq, Repr

/-- First-match association-list lookup. -/
def lookupKey : List (String × String) → String → Option String
  | [], _ => none
  | (k, v) :: rest, key => if k = key then some v else lookupKey rest key

/-- Go's `http.Header.Get`: the header value, or the empty string when
the header is absent. -/
def headerGet (c : GinContext) (name : String) : String :=
  (lookupKey c.headers name).getD ""

/-- gin's `c.GetString`: the context value under the key, or the empty
string when nothing was stored there. -/
def getString (c : GinContext) (key : String) : String :=
  (lookupKey c.keys key).getD ""

/-- gin's `c.Set`: store a value in the request context (prepending,
with first-match lookup, models overwrite). -/
def setKey (c : GinContext) (key v : String) : GinContext :=
  { c with keys := (key, v) :: c.keys }

/-- gin's `c.JSON` followed by `c.Abort`: record the response and stop
the chain. -/
def abortWithJSON (c : GinContext) (status : Nat)
    (body : List (String × String)) : GinContext :=
  { c with response := some (status, body), aborted := true }

/-- The `Authentication` middleware of src/middleware/auth.go, with the
downstream chain as the continuation `next` and `helpers.ValidateToken`
as the parameter `vt` (that helper is not in the provided sources).
Reads the `token` request header; missing token or a validation error
aborts with 401 and an error body; on success the four claim fields are
stored in the context and the chain continues. -/
def Authentication (vt : String → Claims × String)
    (next : GinContext → GinContext) (c : GinContext) : GinContext :=
  let clientToken := headerGet c "token"
  if clientToken = "" then
    abortWithJSON c 401 [("error", "No Authorization header provided")]
  else
    let r := vt clientToken
    if r.2 ≠ "" then
      abortWithJSON c 401 [("error", r.2)]
    else
      next (setKey (setKey (setKey (setKey c "email" r.1.Email)
        "first_name" r.1.FirstName) "last_name" r.1.LastName)
        "user_type" r.1.UserType)

/-- Split a character list at every bar character. -/
def splitBarAux : List Char → List Char → List (List Char)
  | [], acc => [acc.reverse]
  | c :: rest, acc =>
    if c = '|' then acc.reverse :: splitBarAux rest []
    else splitBarAux rest (c :: acc)

/-- The numeric value of a decimal digit character, if it is one. -/
def digitVal (c : Char) : Option Nat :=
  if '0' ≤ c ∧ c ≤ '9' then some (c.toNat - '0'.toNat) else none

/-- Accumulator loop of the decimal reader. -/
def natOfDigitsAux : List Char → Nat → Option Nat
  | [], acc => some acc
  | c :: rest, acc =>
    match digitVal c with
    | some d => natOfDigitsAux rest (acc * 10 + d)
    | none => none

/-- Read a non-empty all-digit character list as a decimal number. -/
def natOfDigits (cs : List Char) : Option Nat :=
  match cs with
  | [] => none
  | _ => natOfDigitsAux cs 0

/-- Modelled from the spec: the wire decoding of a token string (the
JWT parsing done inside the absent `helpers` package).  A concrete
bar-separated format stands in for the JWT encoding: seven fields
(email, first name, last name, role, issued-at, expiry, signature
code); anything else is unparseable. -/
def decodeTok (s : String) : Token :=
  match splitBarAux s.data [] with
  | [e, f, l, r, iat, exp, mac] =>
    match natOfDigits iat, natOfDigits exp, natOfDigits mac with
    | some i, some x, some m =>
      Token.signed ⟨String.mk e, String.mk f, String.mk l, String.mk r, i, x⟩ m
    | _, _, _ => Token.malformed s
  | _ => Token.malformed s

/-- Modelled from the spec: `helpers.ValidateToken` at the wire level,
as the middleware calls it on the raw header string. -/
def ValidateTokenStr (secret : String) (now : Nat) (s : String) :
    Claims × String :=
  validateTokenGo secret now (decodeTok s)

/-- The `RequireAdmin` middleware of src/middleware/auth.go: reads the
`user_type` context value; anything other than ADMIN aborts with 403
and the fixed error body, otherwise the chain continues on the
unchanged context. -/
def RequireAdmin (next : GinContext → GinContext) (c : GinContext) :
    GinContext :=
  let userType := getString c "user_type"
  if userType ≠ "ADMIN" then
    abortWithJSON c 403 [("error", "Admin access required")]
  else
    next c

/-- A JSON body value in a controller response: a string, or a one-level
object of string fields (timestamps and object ids are rendered as
strings, as in the wire JSON; the auth responses nest no deeper). -/
inductive BVal where
  | s : String → BVal
  | o : List (String × String) → BVal
deriving DecidableEq, Repr

/-- An HTTP response as written by `c.JSON`: status code plus JSON
object body. -/
structure HResp where
  status : Nat
  body : List (String × BVal)
deriving DecidableEq, Repr

/-- The `models.User` record of the source (src/unnamed/part_001),
object id rendered as a hex string and times as numbers. -/
structure GoUser where
  ID : String
  FirstName : String
  LastName : String
  Email : String
  Password : String
  Phone : String
  UserToken : String
  RefreshToken : String
  CreatedAt : Nat
  UpdatedAt : Nat
  UserType : String
deriving DecidableEq, Repr

/-- The `models.LoginRequest` body (src/unnamed/part_001). -/
structure LoginRequest where
  email : String
  password : String
deriving DecidableEq, Repr

/-- The JSON rendering of a full `models.User` value, field for field
after the json tags of src/unnamed/part_001 (no field is omitted: the
struct has no omitempty tag on any of these). -/
def renderUser (u : GoUser) : List (String × String) :=
  [("id", u.ID),
   ("first_name", u.FirstName),
   ("last_name", u.LastName),
   ("email", u.Email),
   ("password", u.Password),
   ("phone", u.Phone),
   ("token", u.UserToken),
   ("refresh_token", u.RefreshToken),
   ("created_at", toString u.CreatedAt),
   ("updated_at", toString u.UpdatedAt),
   ("user_type", u.UserType)]

/-- The hand-written user object of the login success response
(src/unnamed/part_003 lines 156-162): exactly id, email, first name,
last name and user type, taken from the stored record. -/
def renderLoginUser (u : GoUser) : List (String × String) :=
  [("id", u.ID),
   ("email", u.Email),
   ("first_name", u.FirstName),
   ("last_name", u.LastName),
   ("user_type", u.UserType)]

/-- The `Login` handler of src/unnamed/part_003, with its external
collaborators as explicit inputs in call order: `findByEmail` is the
user collection's FindOne-by-email, `verify` is
`helpers.VerifyPassword` (hash first, candidate second), `gen` is
`helpers.GenerateAllTokens` returning (token, refresh token) or an
error, and `updateOk` is the outcome of the UpdateOne that stores the
fresh tokens.  The request body is taken already bound (a BindJSON
failure returns 400 before any step modelled here). -/
def Login (findByEmail : String → Option GoUser)
    (verify : String → String → Bool)
    (gen : String → String → String → String → Except String (String × String))
    (updateOk : Bool) (req : LoginRequest) : HResp :=
  match findByEmail req.email with
  | none => ⟨401, [("error", BVal.s "Invalid email or password")]⟩
  | some foundUser =>
    let passwordIsValid := verify foundUser.Password req.password
    if !passwordIsValid then
      ⟨401, [("error", BVal.s "Invalid email or password")]⟩
    else
      match gen foundUser.Email foundUser.FirstName foundUser.LastName
        foundUser.UserType with
      | Except.error _ => ⟨500, [("error", BVal.s "Error generating tokens")]⟩
      | Except.ok (token, _refreshToken) =>
        if !updateOk then
          ⟨500, [("error", BVal.s "Error updating tokens")]⟩
        else
          ⟨200, [("message", BVal.s "Login successful"),
                 ("token", BVal.s token),
                 ("user", BVal.o (renderLoginUser foundUser))]⟩

/-- The `Signup` handler of src/unnamed/part_003, collaborators as
explicit inputs in call order: `validationErr` is the outcome of
`validate.Struct`, `countByEmail` the CountDocuments call, `hash` is
`helpers.HashPassword`, `gen` is `helpers.GenerateAllTokens`,
`insertOk` the outcome of InsertOne; `now` and `newID` are the wall
clock and the freshly drawn object id.  The request body `user` is
taken already bound. -/
def Signup (validationErr : Option String)
    (countByEmail : String → Except String Nat)
    (hash : String → Except String String)
    (gen : String → String → String → String → Except String (String × String))
    (insertOk : Bool) (now : Nat) (newID : String) (user : GoUser) : HResp :=
  match validationErr with
  | some e => ⟨400, [("error", BVal.s e)]⟩
  | none =>
  match countByEmail user.Email with
  | Except.error _ => ⟨500, [("error", BVal.s "Error checking email")]⟩
  | Except.ok count =>
    if count > 0 then ⟨409, [("error", BVal.s "Email already exists")]⟩
    else
      match hash user.Password with
      | Except.error _ => ⟨500, [("error", BVal.s "Error hashing password")]⟩
      | Except.ok hashedPassword =>
        let user1 : GoUser :=
          { user with Password := hashedPassword, CreatedAt := now,
                      UpdatedAt := now, ID := newID }
        match gen user1.Email user1.FirstName user1.LastName user1.UserType with
        | Except.error _ => ⟨500, [("error", BVal.s "Error generating tokens")]⟩
        | Except.ok (token, refreshToken) =>
          let user2 : GoUser :=
            { user1 with UserToken := token, RefreshToken := refreshToken }
          if !insertOk then
            ⟨500, [("error", BVal.s "User was not created")]⟩
          else
            ⟨201, [("message", BVal.s "User created successfully"),
                   ("token", BVal.s token),
                   ("user", BVal.o (renderUser user2))]⟩

/-- C1: for every input tuple (email, firstName, lastName, role),
validating the access token produced by token issuance succeeds and
returns identity claims whose email, first name, last name and role
equal the input tuple (with the issued-at and expiry stamps of
issuance time). -/
theorem C1_issue_validate_roundtrip (secret : String) (now : Nat)
    (email firstName lastName role : String) :
    ValidateToken secret now
      (GenerateAllTokens secret now email firstName lastName role).1 =
      Except.ok ⟨email, firstName, lastName, role, now, now + accessDuration⟩ := by
  simp [ValidateToken, GenerateAllTokens, signClaims, accessDuration]

/-- C8: verifying a password against its own hash succeeds, and
verifying any other password against that hash fails. -/
theorem C8_hash_verify_contract (salt : Nat) (p p1 p2 : String)
    (h : p1 ≠ p2) :
    VerifyPassword (HashPassword salt p) p = true ∧
    VerifyPassword (HashPassword salt p1) p2 = false := by
  constructor
  · simp [VerifyPassword, HashPassword]
  · simp [VerifyPassword, HashPassword]
    intro hdata
    exact h (String.ext hdata).symm

/-- Closed instance of `C8_hash_verify_contract` at concrete
passwords. -/
theorem C8_hash_verify_contract_witness :
    ("alpha" : String) ≠ "beta" ∧
    (VerifyPassword (HashPassword 7 "secret1") "secret1" = true ∧
     VerifyPassword (HashPassword 7 "alpha") "beta" = false) :=
  ⟨by decide, C8_hash_verify_contract 7 "secret1" "alpha" "beta" (by decide)⟩

/-- C2: on a guarded route, a missing `token` header or any validation
error yields HTTP 401 with an error body and aborts without invoking
the downstream handler (the result does not depend on `next`);
otherwise the pipeline continues into `next`. -/
theorem C2_authentication_gate (vt : String → Claims × String)
    (next : GinContext → GinContext) (c : GinContext) :
    (headerGet c "token" = "" →
      Authentication vt next c =
        abortWithJSON c 401 [("error", "No Authorization header provided")]) ∧
    (headerGet c "token" ≠ "" → (vt (headerGet c "token")).2 ≠ "" →
      Authentication vt next c =
        abortWithJSON c 401 [("error", (vt (headerGet c "token")).2)]) ∧
    (headerGet c "token" ≠ "" → (vt (headerGet c "token")).2 = "" →
      Authentication vt next c =
        next (setKey (setKey (setKey (setKey c
          "email" (vt (headerGet c "token")).1.Email)
          "first_name" (vt (headerGet c "token")).1.FirstName)
          "last_name" (vt (headerGet c "token")).1.LastName)
          "user_type" (vt (headerGet c "token")).1.UserType)) := by
  refine ⟨fun h1 => ?_, fun h1 h2 => ?_, fun h1 h2 => ?_⟩
  · simp [Authentication, h1]
  · simp [Authentication, h1, h2]
  · simp [Authentication, h1, h2]

/-- Closed instance of `C2_authentication_gate`: a request with no
token header is rejected with 401 and the fixed message. -/
theorem C2_authentication_gate_witness :
    Authentication (fun _ => (defaultClaims, "Expired")) id
        ⟨[], [], none, false⟩ =
      abortWithJSON ⟨[], [], none, false⟩ 401
        [("error", "No Authorization header provided")] :=
  (C2_authentication_gate (fun _ => (defaultClaims, "Expired")) id
    ⟨[], [], none, false⟩).1 rfl

/-- C3: the admin gate rejects any context whose role claim is not
ADMIN with HTTP 403 and the fixed body, not invoking the handler, and
passes an ADMIN context through unchanged. -/
theorem C3_require_admin_gate (next : GinContext → GinContext)
    (c : GinContext) :
    (getString c "user_type" ≠ "ADMIN" →
      RequireAdmin next c =
        abortWithJSON c 403 [("error", "Admin access required")]) ∧
    (getString c "user_type" = "ADMIN" → RequireAdmin next c = next c) := by
  refine ⟨fun h => ?_, fun h => ?_⟩
  · simp [RequireAdmin, h]
  · simp [RequireAdmin, h]

/-- Closed instance of `C3_require_admin_gate`: an ADMIN context passes
through to the handler unchanged. -/
theorem C3_require_admin_gate_witness :
    RequireAdmin id ⟨[], [("user_type", "ADMIN")], none, false⟩ =
      id ⟨[], [("user_type", "ADMIN")], none, false⟩ :=
  (C3_require_admin_gate id ⟨[], [("user_type", "ADMIN")], none, false⟩).2 rfl

/-- C4 counterexample: two validation-failure kinds (malformed token
and expired token) both answer 401, but the externally visible
response bodies differ — the kinds are distinguished in the response,
not only in logged detail (the middleware logs nothing). -/
theorem C4_kinds_visible_counterexample :
    (Authentication (ValidateTokenStr "k" 50) id
        ⟨[("token", "x")], [], none, false⟩).response =
      some (401, [("error", "Malformed")]) ∧
    (Authentication (ValidateTokenStr "k" 50) id
        ⟨[("token", "e|f|l|r|0|10|15")], [], none, false⟩).response =
      some (401, [("error", "Expired")]) ∧
    ("Malformed" : String) ≠ "Expired" := by
  decide

/-- C4 amended: every token-validation failure kind is answered with
the same HTTP 401 status, but the response body carries the
kind-specific human-readable reason (the missing-header message, or
the validator's message), so distinct kinds remain distinguishable in
the externally visible body; nothing is logged. -/
theorem C4_uniform_status_distinct_bodies (vt : String → Claims × String)
    (next : GinContext → GinContext) (c : GinContext) :
    (headerGet c "token" = "" →
      (Authentication vt next c).response =
        some (401, [("error", "No Authorization header provided")])) ∧
    (headerGet c "token" ≠ "" → (vt (headerGet c "token")).2 ≠ "" →
      (Authentication vt next c).response =
        some (401, [("error", (vt (headerGet c "token")).2)])) ∧
    (∀ e1 e2 : TokenError, e1 ≠ e2 → errMsgOf e1 ≠ errMsgOf e2) := by
  refine ⟨fun h1 => ?_, fun h1 h2 => ?_, fun e1 e2 h => ?_⟩
  · simp [Authentication, h1, abortWithJSON]
  · simp [Authentication, h1, h2, abortWithJSON]
  · cases e1 <;> cases e2 <;> simp_all [errMsgOf]

/-- Closed instance of `C4_uniform_status_distinct_bodies`: a concrete
expired token is answered 401 with the Expired reason in the body. -/
theorem C4_uniform_status_distinct_bodies_witness :
    (Authentication (ValidateTokenStr "k" 50) id
        ⟨[("token", "e|f|l|r|0|10|15")], [], none, false⟩).response =
      some (401, [("error", "Expired")]) := by
  have h := (C4_uniform_status_distinct_bodies (ValidateTokenStr "k" 50) id
    ⟨[("token", "e|f|l|r|0|10|15")], [], none, false⟩).2.1 (by decide) (by decide)
  exact h.trans (by decide)

/-- C7: when authentication succeeds, exactly the four identity claim
fields are attached to the context under the keys email, first_name,
last_name and user_type, the chain continues into `next` on that
enriched context, and each of the four values is readable from it. -/
theorem C7_claims_attached_on_success (vt : String → Claims × String)
    (next : GinContext → GinContext) (c : GinContext)
    (hpresent : headerGet c "token" ≠ "")
    (hok : (vt (headerGet c "token")).2 = "") :
    Authentication vt next c =
      next (setKey (setKey (setKey (setKey c
        "email" (vt (headerGet c "token")).1.Email)
        "first_name" (vt (headerGet c "token")).1.FirstName)
        "last_name" (vt (headerGet c "token")).1.LastName)
        "user_type" (vt (headerGet c "token")).1.UserType) ∧
    (setKey (setKey (setKey (setKey c
        "email" (vt (headerGet c "token")).1.Email)
        "first_name" (vt (headerGet c "token")).1.FirstName)
        "last_name" (vt (headerGet c "token")).1.LastName)
        "user_type" (vt (headerGet c "token")).1.UserType).keys =
      ("user_type", (vt (headerGet c "token")).1.UserType) ::
      ("last_name", (vt (headerGet c "token")).1.LastName) ::
      ("first_name", (vt (headerGet c "token")).1.FirstName) ::
      ("email", (vt (headerGet c "token")).1.Email) :: c.keys ∧
    getString (setKey (setKey (setKey (setKey c
        "email" (vt (headerGet c "token")).1.Email)
        "first_name" (vt (headerGet c "token")).1.FirstName)
        "last_name" (vt (headerGet c "token")).1.LastName)
        "user_type" (vt (headerGet c "token")).1.UserType) "email" =
      (vt (headerGet c "token")).1.Email ∧
    getString (setKey (setKey (setKey (setKey c
        "email" (vt (headerGet c "token")).1.Email)
        "first_name" (vt (headerGet c "token")).1.FirstName)
        "last_name" (vt (headerGet c "token")).1.LastName)
        "user_type" (vt (headerGet c "token")).1.UserType) "first_name" =
      (vt (headerGet c "token")).1.FirstName ∧
    getString (setKey (setKey (setKey (setKey c
        "email" (vt (headerGet c "token")).1.Email)
        "first_name" (vt (headerGet c "token")).1.FirstName)
        "last_name" (vt (headerGet c "token")).1.LastName)
        "user_type" (vt (headerGet c "token")).1.UserType) "last_name" =
      (vt (headerGet c "token")).1.LastName ∧
    getString (setKey (setKey (setKey (setKey c
        "email" (vt (headerGet c "token")).1.Email)
        "first_name" (vt (headerGet c "token")).1.FirstName)
        "last_name" (vt (headerGet c "token")).1.LastName)
        "user_type" (vt (headerGet c "token")).1.UserType) "user_type" =
      (vt (headerGet c "token")).1.UserType := by
  refine ⟨?_, by simp [setKey], ?_, ?_, ?_, ?_⟩
  · simp [Authentication, hpresent, hok]
  all_goals simp [getString, setKey, lookupKey]

/-- Closed instance of `C7_claims_attached_on_success` at a concrete
valid token and a handler reading the context. -/
theorem C7_claims_attached_on_success_witness :
    Authentication (ValidateTokenStr "k" 5) id
        ⟨[("token", "e|f|l|ADMIN|0|10|19")], [], none, false⟩ =
      id (setKey (setKey (setKey (setKey
        ⟨[("token", "e|f|l|ADMIN|0|10|19")], [], none, false⟩
        "email" (ValidateTokenStr "k" 5 "e|f|l|ADMIN|0|10|19").1.Email)
        "first_name" (ValidateTokenStr "k" 5 "e|f|l|ADMIN|0|10|19").1.FirstName)
        "last_name" (ValidateTokenStr "k" 5 "e|f|l|ADMIN|0|10|19").1.LastName)
        "user_type" (ValidateTokenStr "k" 5 "e|f|l|ADMIN|0|10|19").1.UserType) :=
  (C7_claims_attached_on_success (ValidateTokenStr "k" 5) id
    ⟨[("token", "e|f|l|ADMIN|0|10|19")], [], none, false⟩
    (by decide) (by decide)).1

/-- C10: when no `user_type` value is attached to the context, the role
reads as the empty string, which is not ADMIN, so the admin gate
rejects with HTTP 403 and a result that does not depend on the
downstream handler — the precondition violation fails closed. -/
theorem C10_require_admin_fail_closed (next : GinContext → GinContext)
    (c : GinContext) (h : lookupKey c.keys "user_type" = none) :
    getString c "user_type" = "" ∧
    RequireAdmin next c =
      abortWithJSON c 403 [("error", "Admin access required")] := by
  have hg : getString c "user_type" = "" := by simp [getString, h]
  refine ⟨hg, ?_⟩
  simp [RequireAdmin, hg]

/-- Closed instance of `C10_require_admin_fail_closed`: an empty
context (authentication never ran) is rejected even though the
downstream handler would have answered 200. -/
theorem C10_require_admin_fail_closed_witness :
    getString ⟨[], [], none, false⟩ "user_type" = "" ∧
    RequireAdmin (fun c => { c with response := some (200, []) })
        ⟨[], [], none, false⟩ =
      abortWithJSON ⟨[], [], none, false⟩ 403
        [("error", "Admin access required")] :=
  C10_require_admin_fail_closed (fun c => { c with response := some (200, []) })
    ⟨[], [], none, false⟩ rfl

/-- C5: a login with an unknown email and a login with a known email
but a non-verifying password produce identical responses, HTTP 401
with the body error "Invalid email or password" — the response does
not reveal whether the email exists. -/
theorem C5_login_no_oracle (db : String → Option GoUser)
    (verify : String → String → Bool)
    (gen : String → String → String → String → Except String (String × String))
    (updateOk : Bool) (req1 req2 : LoginRequest) (u : GoUser)
    (h1 : db req1.email = none)
    (h2 : db req2.email = some u)
    (h3 : verify u.Password req2.password = false) :
    Login db verify gen updateOk req1 = Login db verify gen updateOk req2 ∧
    Login db verify gen updateOk req1 =
      ⟨401, [("error", BVal.s "Invalid email or password")]⟩ := by
  constructor
  · simp [Login, h1, h2, h3]
  · simp [Login, h1]

/-- Closed instance of `C5_login_no_oracle` at a concrete store and
two concrete failing logins. -/
theorem C5_login_no_oracle_witness :
    ((fun e => if e = "a@b.c" then
        some (⟨"id1", "F", "L", "a@b.c", "HASH", "p", "", "", 0, 0, "USER"⟩ : GoUser)
      else none) ("x@y.z" : String) = none) ∧
    ((fun e => if e = "a@b.c" then
        some (⟨"id1", "F", "L", "a@b.c", "HASH", "p", "", "", 0, 0, "USER"⟩ : GoUser)
      else none) ("a@b.c" : String) =
      some ⟨"id1", "F", "L", "a@b.c", "HASH", "p", "", "", 0, 0, "USER"⟩) ∧
    (Login (fun e => if e = "a@b.c" then
        some ⟨"id1", "F", "L", "a@b.c", "HASH", "p", "", "", 0, 0, "USER"⟩
      else none) (fun _ _ => false)
      (fun _ _ _ _ => Except.ok ("t", "rt")) true ⟨"x@y.z", "pw"⟩ =
     Login (fun e => if e = "a@b.c" then
        some ⟨"id1", "F", "L", "a@b.c", "HASH", "p", "", "", 0, 0, "USER"⟩
      else none) (fun _ _ => false)
      (fun _ _ _ _ => Except.ok ("t", "rt")) true ⟨"a@b.c", "wrong"⟩ ∧
     Login (fun e => if e = "a@b.c" then
        some ⟨"id1", "F", "L", "a@b.c", "HASH", "p", "", "", 0, 0, "USER"⟩
      else none) (fun _ _ => false)
      (fun _ _ _ _ => Except.ok ("t", "rt")) true ⟨"x@y.z", "pw"⟩ =
       ⟨401, [("error", BVal.s "Invalid email or password")]⟩) :=
  ⟨by decide, by decide,
   C5_login_no_oracle _ (fun _ _ => false)
     (fun _ _ _ _ => Except.ok ("t", "rt")) true
     ⟨"x@y.z", "pw"⟩ ⟨"a@b.c", "wrong"⟩
     ⟨"id1", "F", "L", "a@b.c", "HASH", "p", "", "", 0, 0, "USER"⟩
     (by decide) (by decide) rfl⟩

/-- C6: a login whose stored user's password verifies (and whose token
generation and token-bookkeeping update succeed) answers HTTP 200 with
exactly the fields message, token and user, the user object holding
exactly id, email, first_name, last_name and user_type from the stored
record; no password field appears in the response. -/
theorem C6_login_success_shape (db : String → Option GoUser)
    (verify : String → String → Bool)
    (gen : String → String → String → String → Except String (String × String))
    (req : LoginRequest) (u : GoUser) (t rt : String)
    (h1 : db req.email = some u)
    (h2 : verify u.Password req.password = true)
    (h3 : gen u.Email u.FirstName u.LastName u.UserType = Except.ok (t, rt)) :
    Login db verify gen true req =
      ⟨200, [("message", BVal.s "Login successful"),
             ("token", BVal.s t),
             ("user", BVal.o (renderLoginUser u))]⟩ ∧
    (renderLoginUser u).map Prod.fst =
      ["id", "email", "first_name", "last_name", "user_type"] ∧
    lookupKey (renderLoginUser u) "password" = none := by
  refine ⟨?_, rfl, rfl⟩
  simp [Login, h1, h2, h3]

/-- Closed instance of `C6_login_success_shape` at a concrete store
and a verifying login. -/
theorem C6_login_success_shape_witness :
    ((fun e => if e = "a@b.c" then
        some (⟨"id1", "F", "L", "a@b.c", "HASH", "p", "", "", 0, 0, "USER"⟩ : GoUser)
      else none) ("a@b.c" : String) =
      some ⟨"id1", "F", "L", "a@b.c", "HASH", "p", "", "", 0, 0, "USER"⟩) ∧
    ((fun hd pw => hd == "HASH" && pw == "pw123") ("HASH" : String) "pw123" = true) ∧
    (Login (fun e => if e = "a@b.c" then
        some ⟨"id1", "F", "L", "a@b.c", "HASH", "p", "", "", 0, 0, "USER"⟩
      else none) (fun hd pw => hd == "HASH" && pw == "pw123")
      (fun _ _ _ _ => Except.ok ("tok", "rtok")) true ⟨"a@b.c", "pw123"⟩ =
      ⟨200, [("message", BVal.s "Login successful"),
             ("token", BVal.s "tok"),
             ("user", BVal.o (renderLoginUser
               ⟨"id1", "F", "L", "a@b.c", "HASH", "p", "", "", 0, 0, "USER"⟩))]⟩) :=
  ⟨by decide, by decide,
   (C6_login_success_shape _ (fun hd pw => hd == "HASH" && pw == "pw123")
     (fun _ _ _ _ => Except.ok ("tok", "rtok")) ⟨"a@b.c", "pw123"⟩
     ⟨"id1", "F", "L", "a@b.c", "HASH", "p", "", "", 0, 0, "USER"⟩ "tok" "rtok"
     (by decide) (by decide) rfl).1⟩

/-- C9: a successful signup (valid body, unused email, hashing, token
generation and insert all succeed) answers HTTP 201 whose body embeds
the full stored user record: the user object's password field holds
the password hash, and its token and refresh_token fields hold the
freshly issued tokens. -/
theorem C9_signup_embeds_full_record
    (countByEmail : String → Except String Nat)
    (hash : String → Except String String)
    (gen : String → String → String → String → Except String (String × String))
    (now : Nat) (newID : String) (u : GoUser) (t rt hp : String)
    (h1 : countByEmail u.Email = Except.ok 0)
    (h2 : hash u.Password = Except.ok hp)
    (h3 : gen u.Email u.FirstName u.LastName u.UserType = Except.ok (t, rt)) :
    Signup none countByEmail hash gen true now newID u =
      ⟨201, [("message", BVal.s "User created successfully"),
             ("token", BVal.s t),
             ("user", BVal.o (renderUser
               { u with Password := hp, CreatedAt := now, UpdatedAt := now,
                        ID := newID, UserToken := t, RefreshToken := rt }))]⟩ ∧
    lookupKey (renderUser
      { u with Password := hp, CreatedAt := now, UpdatedAt := now,
               ID := newID, UserToken := t, RefreshToken := rt }) "password" =
      some hp ∧
    lookupKey (renderUser
      { u with Password := hp, CreatedAt := now, UpdatedAt := now,
               ID := newID, UserToken := t, RefreshToken := rt }) "token" =
      some t ∧
    lookupKey (renderUser
      { u with Password := hp, CreatedAt := now, UpdatedAt := now,
               ID := newID, UserToken := t, RefreshToken := rt }) "refresh_token" =
      some rt := by
  refine ⟨?_, rfl, rfl, rfl⟩
  simp [Signup, h1, h2, h3]

/-- Closed instance of `C9_signup_embeds_full_record`: the 201 body of
a concrete signup carries the hash and both fresh tokens inside the
user object. -/
theorem C9_signup_embeds_full_record_witness :
    ((fun _ => Except.ok 0 : String → Except String Nat)
      ("n@w.io" : String) = Except.ok 0) ∧
    ((fun p => Except.ok ("H:" ++ p) : String → Except String String)
      ("pw123" : String) = Except.ok "H:pw123") ∧
    (Signup none (fun _ => Except.ok 0) (fun p => Except.ok ("H:" ++ p))
      (fun _ _ _ _ => Except.ok ("tok", "rtok")) true 42 "oid9"
      ⟨"", "N", "W", "n@w.io", "pw123", "ph", "", "", 0, 0, "USER"⟩ =
      ⟨201, [("message", BVal.s "User created successfully"),
             ("token", BVal.s "tok"),
             ("user", BVal.o (renderUser
               ⟨"oid9", "N", "W", "n@w.io", "H:pw123", "ph", "tok", "rtok",
                42, 42, "USER"⟩))]⟩) :=
  ⟨rfl, rfl,
   ((C9_signup_embeds_full_record (fun _ => Except.ok 0)
     (fun p => Except.ok ("H:" ++ p))
     (fun _ _ _ _ => Except.ok ("tok", "rtok")) 42 "oid9"
     ⟨"", "N", "W", "n@w.io", "pw123", "ph", "", "", 0, 0, "USER"⟩
     "tok" "rtok" "H:pw123" rfl rfl rfl).1).trans (by decide)⟩
